import Mathlib

set_option linter.unusedVariables false

/-!
Shallow embedding of the statistics / recommendation core of
`prize-picks-analyzer` (`src/analyzer.py`, class `PrizePicksAnalyzer`), and
theorems settling the claims about it.

Modelling conventions:

* Numeric metric values, lines and confidence levels are `ℚ` (the Python code
  computes with floats; every claim-relevant comparison here is between
  rationals produced by exact means/variances, so `ℚ` is the faithful exact
  model).
* A Python game dict `{'date': d, 'points': v, ..., 'opponent': o}` is a
  `GameRecord`: the date, the numeric metric entries as an association list,
  and the optional opponent string.  The bookkeeping keys `'date'` and
  `'opponent'` are kept out of the metric map; no claim queries them as a
  metric.
* Python results are modelled by `PyResult`: `ok` for a returned dict,
  `pyNone` for a returned `None`, `msg` for a returned error string
  (`analyze_trend`'s failure values), and `exn` for an UNHANDLED Python
  exception escaping the call (`KeyError`, `AttributeError`).
  Distinguishing `exn` from the sentinel returns is what several
  error-handling claims are about.  The one float division at the query
  boundary (`avg_vs_line`, analyzer.py line 214) acts on an `np.float64`
  numerator, so a zero divisor yields `±inf`/`nan` (with a
  `RuntimeWarning`) rather than raising; `FloatQ`/`fdiv` model that
  extended-value arithmetic exactly.
* `numpy.std` returns the square root of the population variance.  The square
  root of a rational is irrational, so wherever the source compares a
  quantity against the standard deviation we carry the population *variance*
  and encode the comparison exactly by squaring; lemmas
  `tsPos_iff_real`, `tsAbove_iff_real` below prove over `ℝ` that the
  encodings coincide with the source's comparisons on the real square root.
* `sorted(..., key=lambda x: x['date'], reverse=True)` is a stable descending
  sort; `sortByDateDesc` is a stable insertion sort realising exactly that
  specification (later-inserted records go after earlier ones on equal
  dates).
-/

/-- One unhandled Python exception kind that can escape the analyzer's
query methods.  (Division by zero is NOT among them: the divisions at the
query boundary act on `np.float64` values, which yield `±inf`/`nan` with a
`RuntimeWarning` under numpy's default error state instead of raising —
see `fdiv` below.) -/
inductive PyExn where
  | keyError : String → PyExn
  | attributeError : PyExn
deriving DecidableEq, Repr

/-- Result of a Python method call: a returned value, a returned `None`, a
returned error string, or an unhandled exception propagating out. -/
inductive PyResult (α : Type) where
  | ok : α → PyResult α
  | pyNone : PyResult α
  | msg : String → PyResult α
  | exn : PyExn → PyResult α
deriving DecidableEq, Repr

/-- Association-list lookup with decidable string keys; models Python dict
lookup `d[k]` / membership `k in d`. -/
def lookupA {β : Type} : List (String × β) → String → Option β
  | [], _ => none
  | (k, v) :: rest, key => if k = key then some v else lookupA rest key

/-- Association-list update-or-append; models Python dict assignment
`d[k] = v` (dict iteration order is never observed by the analyzer, so the
position of a freshly created key is irrelevant). -/
def setA {β : Type} : List (String × β) → String → β → List (String × β)
  | [], key, v => [(key, v)]
  | (k, w) :: rest, key, v =>
      if k = key then (key, v) :: rest else (k, w) :: setA rest key v

/-- One game dict appended by `add_game_data`: the date, the numeric metric
entries, and the optional `'opponent'` entry. -/
structure GameRecord where
  date : ℕ
  metrics : List (String × ℚ)
  opponent : Option String
deriving DecidableEq, Repr

/-- `game[metric]` as an `Option` (source raises `KeyError` on `none`). -/
def GameRecord.get? (r : GameRecord) (m : String) : Option ℚ :=
  lookupA r.metrics m

/-- The analyzer state: `self.player_stats` (player → game list, insertion
order) and `self.opponent_stats` (player → opponent → game list, insertion
order), both modelled as association lists. -/
structure Analyzer where
  player_stats : List (String × List GameRecord)
  opponent_stats : List (String × List (String × List GameRecord))
deriving DecidableEq, Repr

/-- The freshly constructed analyzer: both dicts empty. -/
def Analyzer.empty : Analyzer := ⟨[], []⟩

/-- `add_game_data(player_name, date, stats)`: append the record to the
player's history and, when the stats carry an opponent, also to the
opponent index (the Python `defaultdict` creates missing buckets on
access). -/
def add_game_data (a : Analyzer) (player : String) (date : ℕ)
    (metrics : List (String × ℚ)) (opponent : Option String) : Analyzer :=
  let rec_ : GameRecord := ⟨date, metrics, opponent⟩
  let cur := (lookupA a.player_stats player).getD []
  let ps := setA a.player_stats player (cur ++ [rec_])
  match opponent with
  | none => { a with player_stats := ps }
  | some o =>
      let pmap := (lookupA a.opponent_stats player).getD []
      let games := (lookupA pmap o).getD []
      { a with
          player_stats := ps,
          opponent_stats :=
            setA a.opponent_stats player (setA pmap o (games ++ [rec_])) }

/-- `np.mean` on a list of rationals (all call sites pass nonempty lists). -/
def listMean (l : List ℚ) : ℚ := l.sum / l.length

/-- Population variance (divisor `n`, not `n−1`): the square of what
`np.std` returns.  Comparisons against the standard deviation are encoded
against this square. -/
def popVar (l : List ℚ) : ℚ :=
  (l.map (fun x => (x - listMean l) * (x - listMean l))).sum / l.length

/-- `max(values)` on a nonempty list (0 on the unreachable empty case). -/
def listMax : List ℚ → ℚ
  | [] => 0
  | v :: vs => vs.foldl max v

/-- `min(values)` on a nonempty list (0 on the unreachable empty case). -/
def listMin : List ℚ → ℚ
  | [] => 0
  | v :: vs => vs.foldl min v

/-- Insert a record into a list already sorted by strictly descending-or-equal
date, after all records of ≥ date: realises stability of Python's
`sorted(..., reverse=True)` for the element inserted later. -/
def insertDesc (r : GameRecord) : List GameRecord → List GameRecord
  | [] => [r]
  | x :: xs => if x.date < r.date then r :: x :: xs else x :: insertDesc r xs

/-- `sorted(stats, key=lambda x: x['date'], reverse=True)`: stable descending
sort by date. -/
def sortByDateDesc (l : List GameRecord) : List GameRecord :=
  l.foldl (fun acc r => insertDesc r acc) []

/-- `[game[metric] for game in games]`: extract the metric from every record,
raising `KeyError` at the first record that lacks it. -/
def extractValues (metric : String) : List GameRecord → Except PyExn (List ℚ)
  | [] => Except.ok []
  | g :: gs =>
      match g.get? metric with
      | none => Except.error (PyExn.keyError metric)
      | some v =>
          match extractValues metric gs with
          | Except.error e => Except.error e
          | Except.ok vs => Except.ok (v :: vs)

/-- `round(x, 1)` over `ℚ` (Python's float banker's rounding differs from
`round` only on exact half-way ties, which no claim exercises). -/
def round1 (x : ℚ) : ℚ := ((round (10 * x) : ℤ) : ℚ) / 10

/-- `round(x, 2)` over `ℚ`, same caveat as `round1`. -/
def round2 (x : ℚ) : ℚ := ((round (100 * x) : ℤ) : ℚ) / 100

/-- Python truthiness of an optional float: `None` and `0.0` are falsy. -/
def falsyQ : Option ℚ → Bool
  | none => true
  | some x => decide (x = 0)

/-- Opponent-trend labels (`_calculate_opponent_trend` return values). -/
inductive OppTrend where
  | improving : OppTrend
  | declining : OppTrend
  | stable : OppTrend
  | insufficientData : OppTrend
deriving DecidableEq, Repr

/-- `_calculate_opponent_trend(values)` (analyzer.py lines 61–75): values are
ordered most recent first; compare the most recent value to the mean of all
the others. -/
def calculate_opponent_trend (values : List ℚ) : OppTrend :=
  match values with
  | [] => OppTrend.insufficientData
  | [_] => OppTrend.insufficientData
  | recent :: rest =>
      let historical_avg := listMean rest
      if historical_avg * (11/10) < recent then OppTrend.improving
      else if recent < historical_avg * (9/10) then OppTrend.declining
      else OppTrend.stable

/-- The dict returned by `get_opponent_stats` (analyzer.py lines 49–59).
`variance` carries the square of the source's `std_dev` entry (see the file
header); no claim reads that entry. -/
structure OppStats where
  games_played : ℕ
  average : ℚ
  maxv : ℚ
  minv : ℚ
  variance : ℚ
  last_matchup : ℕ
  last_performance : ℚ
  trend : OppTrend
  recent_games : List GameRecord
deriving DecidableEq, Repr

/-- `get_opponent_stats(player_name, opponent, metric)` (analyzer.py lines
32–59).  Note the metric-presence guard inspects `games[0]`, the
first-*inserted* record; the per-record extraction after sorting can raise
`KeyError`. -/
def get_opponent_stats (a : Analyzer) (player opponent metric : String) :
    PyResult OppStats :=
  match lookupA a.opponent_stats player with
  | none => PyResult.pyNone
  | some pmap =>
      match lookupA pmap opponent with
      | none => PyResult.pyNone
      | some games =>
          match games with
          | [] => PyResult.pyNone
          | g0 :: _ =>
              if (g0.get? metric).isNone then PyResult.pyNone
              else
                let sorted_games := sortByDateDesc games
                match extractValues metric sorted_games with
                | Except.error e => PyResult.exn e
                | Except.ok values =>
                    PyResult.ok
                      { games_played := values.length,
                        average := listMean values,
                        maxv := listMax values,
                        minv := listMin values,
                        variance :=
                          if 1 < values.length then popVar values else 0,
                        last_matchup :=
                          (sorted_games.headD g0).date,
                        last_performance :=
                          ((sorted_games.headD g0).get? metric).getD 0,
                        trend := calculate_opponent_trend values,
                        recent_games := sorted_games.take 5 }

/-- The dict returned by `calculate_averages` (analyzer.py lines 134–140);
`variance` again carries the square of the source's `std_dev`. -/
structure Averages where
  last_5 : Option ℚ
  last_10 : Option ℚ
  maxv : ℚ
  minv : ℚ
  variance : ℚ
deriving DecidableEq, Repr

/-- `calculate_averages(player_name, metric, games_back=10)` (analyzer.py
lines 116–140).  The metric-presence guard here inspects `recent_stats[0]`,
the most recent record *after* sorting; later records lacking the metric
raise `KeyError` during extraction. -/
def calculate_averages (a : Analyzer) (player metric : String)
    (games_back : ℕ := 10) : PyResult Averages :=
  match lookupA a.player_stats player with
  | none => PyResult.pyNone
  | some stats =>
      match stats with
      | [] => PyResult.pyNone
      | _ :: _ =>
          let recent_stats := (sortByDateDesc stats).take games_back
          match recent_stats with
          -- unreachable for games_back = 10 (the only call site) and a
          -- nonempty history, so the Python IndexError of `recent_stats[0]`
          -- on an empty slice can never surface
          | [] => PyResult.pyNone
          | r0 :: _ =>
              if (r0.get? metric).isNone then PyResult.pyNone
              else
                match extractValues metric recent_stats with
                | Except.error e => PyResult.exn e
                | Except.ok values =>
                    PyResult.ok
                      { last_5 :=
                          if 5 ≤ values.length then
                            some (listMean (values.take 5))
                          else none,
                        last_10 :=
                          if 10 ≤ values.length then some (listMean values)
                          else none,
                        maxv := listMax values,
                        minv := listMin values,
                        variance := popVar values }

/-- The dict `suggest_line` would return (analyzer.py lines 188–195).  The
source never reaches this return — see `suggest_line` below — but the shape
is kept for fidelity and for the matchup adjuster's types. -/
structure LineSuggestion where
  suggested_line : ℚ
  range_lo : ℚ
  range_hi : ℚ
  confidence : ℚ
  recent_form : String
  mean : ℚ
  last_5_avg : ℚ
deriving DecidableEq, Repr

/-- `suggest_line(player_name, metric, confidence_interval=0.80)`
(analyzer.py lines 142–195).  The local assignment
`stats = self.player_stats[player_name]` (line 151) shadows the module-level
`from scipy import stats`, so line 174's `stats.t.interval(...)`
dereferences attribute `t` of a Python *list* and raises `AttributeError`:
every call that survives the data checks raises instead of returning the
suggestion dict. -/
def suggest_line (a : Analyzer) (player metric : String)
    (confidence_interval : ℚ := 4/5) : PyResult LineSuggestion :=
  match lookupA a.player_stats player with
  | none => PyResult.pyNone
  | some stats =>
      match stats with
      | [] => PyResult.pyNone
      | s0 :: _ =>
          if (s0.get? metric).isNone then PyResult.pyNone
          else
            let sorted_stats := sortByDateDesc stats
            match extractValues metric (sorted_stats.take 20) with
            | Except.error e => PyResult.exn e
            | Except.ok recent_values =>
                if recent_values.length < 5 then PyResult.pyNone
                else
                  -- line 174: `ci = stats.t.interval(...)` — `stats` is the
                  -- game list, not scipy.stats; lines 176–195 are dead code.
                  PyResult.exn PyExn.attributeError

/-- The `vs_opponent` sub-dict attached by `suggest_line_with_matchup`
(analyzer.py lines 106–112). -/
structure VsOpponent where
  average : ℚ
  games_played : ℕ
  last_matchup : ℕ
  last_performance : ℚ
  trend : OppTrend
deriving DecidableEq, Repr

/-- The (possibly opponent-adjusted) suggestion dict returned by
`suggest_line_with_matchup`: the base dict with `suggested_line` possibly
overwritten and the optional `opponent_factor` / `vs_opponent` keys. -/
structure MatchupSuggestion where
  suggestion : LineSuggestion
  opponent_factor : Option ℚ
  vs_opponent : Option VsOpponent
deriving DecidableEq, Repr

/-- `suggest_line_with_matchup(player_name, metric, opponent=None,
confidence_interval=0.80)` (analyzer.py lines 77–114).  `if not opponent`
treats the empty string like `None`; an exception from `suggest_line` or
`get_opponent_stats` propagates. -/
def suggest_line_with_matchup (a : Analyzer) (player metric : String)
    (opponent : Option String := none) (confidence_interval : ℚ := 4/5) :
    PyResult MatchupSuggestion :=
  match suggest_line a player metric confidence_interval with
  | PyResult.exn e => PyResult.exn e
  | PyResult.pyNone => PyResult.pyNone
  | PyResult.msg _ => PyResult.pyNone  -- unreachable: suggest_line has no msg
  | PyResult.ok base =>
      match opponent with
      | none => PyResult.ok ⟨base, none, none⟩
      | some o =>
          if o = "" then PyResult.ok ⟨base, none, none⟩
          else
            match get_opponent_stats a player o metric with
            | PyResult.exn e => PyResult.exn e
            | PyResult.pyNone => PyResult.ok ⟨base, none, none⟩
            | PyResult.msg _ => PyResult.ok ⟨base, none, none⟩
            | PyResult.ok os =>
                if os.games_played < 2 then PyResult.ok ⟨base, none, none⟩
                else
                  let adjustment_factor := (os.average - base.mean) * (3/10)
                  PyResult.ok
                    { suggestion :=
                        { base with
                            suggested_line :=
                              round1 (base.suggested_line +
                                adjustment_factor) },
                      opponent_factor := some (round1 adjustment_factor),
                      vs_opponent :=
                        some
                          { average := round1 os.average,
                            games_played := os.games_played,
                            last_matchup := os.last_matchup,
                            last_performance := os.last_performance,
                            trend := os.trend } }

/-- Over/under recommendation labels. -/
inductive Rec where
  | over : Rec
  | under : Rec
  | avoid : Rec
deriving DecidableEq, Repr

/-- Confidence tiers. -/
inductive Conf where
  | low : Conf
  | medium : Conf
  | high : Conf
deriving DecidableEq, Repr

/-- `trend_strength > 0`, encoded exactly: with
`trend_strength = (last_5 − last_10)/std` when `std ≠ 0` and `0` otherwise,
positivity holds iff the variance is nonzero and the difference `d` is
positive (`tsPos_iff_real` below justifies the encoding over `ℝ`). -/
def tsPos (d v : ℚ) : Bool := decide (v ≠ 0) && decide (0 < d)

/-- `trend_strength < 0`, encoded exactly as in `tsPos`. -/
def tsNeg (d v : ℚ) : Bool := decide (v ≠ 0) && decide (d < 0)

/-- `trend_strength > 0.2`: for `std = √v > 0`, `d/√v > 1/5 ↔ 0 < d ∧
v < 25·d²` (squaring; `tsAbove_iff_real` below). -/
def tsAbove (d v : ℚ) : Bool := tsPos d v && decide (v < 25 * (d * d))

/-- `trend_strength < −0.2`, the mirror image of `tsAbove`. -/
def tsBelow (d v : ℚ) : Bool := tsNeg d v && decide (v < 25 * (d * d))

/-- The `vs_opponent` sub-dict of a trend recommendation (analyzer.py lines
221–226). -/
structure OppPerf where
  average : ℚ
  games_played : ℕ
  trend : OppTrend
  last_performance : ℚ
deriving DecidableEq, Repr

/-- Trend labels of a trend recommendation (analyzer.py line 233). -/
inductive Trend where
  | up : Trend
  | down : Trend
  | stable : Trend
deriving DecidableEq, Repr

/-- The recommendation dict returned by `analyze_trend` (analyzer.py lines
228–237); `recommendation` and `confidence` start as `None` in the source
but are always assigned before the dict is returned, so they are modelled
as total fields. -/
structure TrendRecommendation where
  metric : String
  line : ℚ
  last_5_avg : ℚ
  last_10_avg : ℚ
  trend : Trend
  recommendation : Rec
  confidence : Conf
  vs_opponent : Option OppPerf
deriving DecidableEq, Repr

/-- Lines 216–226 of analyzer.py: fetch the opponent-specific performance
sub-dict when an opponent is given (`if opponent:` — the empty string counts
as no opponent); a `KeyError` from `get_opponent_stats` propagates. -/
def opponent_performance (a : Analyzer) (player metric : String) :
    Option String → Except PyExn (Option OppPerf)
  | none => Except.ok none
  | some o =>
      if o = "" then Except.ok none
      else
        match get_opponent_stats a player o metric with
        | PyResult.exn e => Except.error e
        | PyResult.pyNone => Except.ok none
        | PyResult.msg _ => Except.ok none  -- unreachable
        | PyResult.ok os =>
            Except.ok (some
              { average := round2 os.average,
                games_played := os.games_played,
                trend := os.trend,
                last_performance := os.last_performance })

/-- Lines 240–245 of analyzer.py: the confidence modifier derived from the
opponent performance's trend. -/
def confidence_modifier : Option OppPerf → ℚ
  | none => 0
  | some p =>
      if p.trend = OppTrend.improving then 1/10
      else if p.trend = OppTrend.declining then -(1/10) else 0

/-- Lines 257–262 of analyzer.py: adjust the base confidence by the
opponent-history modifier (`confidence_modifier > 0` upgrades MEDIUM,
`< 0` downgrades HIGH). -/
def adjust_confidence (cmod : ℚ) (base : Conf) : Conf :=
  if 0 < cmod ∧ base = Conf.medium then Conf.high
  else if cmod < 0 ∧ base = Conf.high then Conf.medium
  else base

/-- An IEEE-754-style extended value: the result of the float division on
analyzer.py line 214.  `last_5_avg` is an `np.float64` (output of
`np.mean`), and numpy's default error state (the repository never calls
`np.seterr`/`np.errstate`) turns a float division by zero into `±inf` with
a `RuntimeWarning` — no exception is raised.  A `0/0` gives `nan`. -/
inductive FloatQ where
  | fin : ℚ → FloatQ
  | posInf : FloatQ
  | negInf : FloatQ
  | nan : FloatQ
deriving DecidableEq, Repr

/-- `(last_5_avg - line) / line` (analyzer.py line 214) under numpy float
semantics: the exact rational quotient for a nonzero divisor, `±inf` for a
nonzero numerator over zero, `nan` for `0/0`. -/
def fdiv (a b : ℚ) : FloatQ :=
  if b = 0 then
    if 0 < a then FloatQ.posInf
    else if a < 0 then FloatQ.negInf
    else FloatQ.nan
  else FloatQ.fin (a / b)

/-- `abs(avg_vs_line) > 0.1` (analyzer.py line 248) under IEEE comparison:
true for `±inf`, false for `nan`. -/
def absGtTenth : FloatQ → Bool
  | FloatQ.fin q => decide (1/10 < |q|)
  | FloatQ.posInf => true
  | FloatQ.negInf => true
  | FloatQ.nan => false

/-- `avg_vs_line > 0` (analyzer.py line 249) under IEEE comparison: true for
`+inf`, false for `-inf` and `nan`. -/
def gtZero : FloatQ → Bool
  | FloatQ.fin q => decide (0 < q)
  | FloatQ.posInf => true
  | FloatQ.negInf => false
  | FloatQ.nan => false

/-- Lines 247–265 of analyzer.py: the recommendation / confidence pair from
`avg_vs_line` (an extended float, see `fdiv`), the sign of `trend_strength`
(`sPos`/`sNeg`, see `tsPos`) and the confidence modifier. -/
def make_recommendation (avg_vs_line : FloatQ) (sPos sNeg : Bool)
    (cmod : ℚ) : Rec × Conf :=
  if absGtTenth avg_vs_line then
    if gtZero avg_vs_line then
      (Rec.over,
        adjust_confidence cmod (if sPos then Conf.high else Conf.medium))
    else
      (Rec.under,
        adjust_confidence cmod (if sNeg then Conf.high else Conf.medium))
  else (Rec.avoid, Conf.low)

/-- `analyze_trend(player_name, metric, line, opponent=None)` (analyzer.py
lines 197–267).  Notable faithful details: `if not last_5_avg or not
last_10_avg` uses Python truthiness, so a `0.0` rolling average is treated
like a missing one; `avg_vs_line = (last_5_avg − line)/line` divides the
`np.float64` rolling average, so a zero line yields `±inf` under numpy's
default error state (a `RuntimeWarning`, no exception — see `fdiv`) and the
call then silently returns an OVER/UNDER recommendation decided by the sign
of `last_5_avg`; `trend_strength` is `0` when the standard deviation
is `0`. -/
def analyze_trend (a : Analyzer) (player metric : String) (line : ℚ)
    (opponent : Option String := none) : PyResult TrendRecommendation :=
  match calculate_averages a player metric 10 with
  | PyResult.exn e => PyResult.exn e
  | PyResult.pyNone => PyResult.msg "Insufficient data"
  | PyResult.msg _ => PyResult.msg "Insufficient data"  -- unreachable
  | PyResult.ok st =>
      if falsyQ st.last_5 || falsyQ st.last_10 then
        PyResult.msg "Insufficient data for trend analysis"
      else
        let last_5_avg := st.last_5.getD 0
        let last_10_avg := st.last_10.getD 0
        let d := last_5_avg - last_10_avg
        let avg_vs_line := fdiv (last_5_avg - line) line
        match opponent_performance a player metric opponent with
        | Except.error e => PyResult.exn e
        | Except.ok perf =>
            let rc :=
              make_recommendation avg_vs_line (tsPos d st.variance)
                (tsNeg d st.variance) (confidence_modifier perf)
            PyResult.ok
              { metric := metric,
                line := line,
                last_5_avg := round2 last_5_avg,
                last_10_avg := round2 last_10_avg,
                trend :=
                  if tsAbove d st.variance then Trend.up
                  else if tsBelow d st.variance then Trend.down
                  else Trend.stable,
                recommendation := rc.1,
                confidence := rc.2,
                vs_opponent := perf }

/-- Build an analyzer by feeding rows `(player, date, metrics, opponent)`
through `add_game_data` in order, starting from the fresh analyzer. -/
def buildStore (rows : List (String × ℕ × List (String × ℚ) × Option String)) :
    Analyzer :=
  rows.foldl (fun a r => add_game_data a r.1 r.2.1 r.2.2.1 r.2.2.2)
    Analyzer.empty

/-- Scenario A store: one player `"p1"` with points
20,22,24,26,28,30,32,34,36,38 entered oldest to newest on dates 1..10. -/
def storeA : Analyzer :=
  buildStore
    [("p1", 1, [("points", 20)], none),
     ("p1", 2, [("points", 22)], none),
     ("p1", 3, [("points", 24)], none),
     ("p1", 4, [("points", 26)], none),
     ("p1", 5, [("points", 28)], none),
     ("p1", 6, [("points", 30)], none),
     ("p1", 7, [("points", 32)], none),
     ("p1", 8, [("points", 34)], none),
     ("p1", 9, [("points", 36)], none),
     ("p1", 10, [("points", 38)], none)]

/-- Justification of the `tsPos` encoding over the reals: for positive
variance `v`, the source's `trend_strength = d / √v` is positive exactly
when `tsPos d v` holds. -/
theorem tsPos_iff_real (d v : ℚ) (hv : 0 < v) :
    tsPos d v = true ↔ (0 : ℝ) < (d : ℝ) / Real.sqrt (v : ℝ) := by
  have hs : (0 : ℝ) < Real.sqrt (v : ℝ) :=
    Real.sqrt_pos.mpr (by exact_mod_cast hv)
  unfold tsPos
  rw [Bool.and_eq_true, decide_eq_true_eq, decide_eq_true_eq, div_pos_iff]
  constructor
  · rintro ⟨-, hd⟩
    exact Or.inl ⟨by exact_mod_cast hd, hs⟩
  · rintro (⟨hd, -⟩ | ⟨-, hcon⟩)
    · exact ⟨hv.ne', by exact_mod_cast hd⟩
    · exact absurd hs (not_lt.mpr hcon.le)

/-- Justification of the `tsAbove` encoding over the reals: for positive
variance `v`, the source's `trend_strength > 0.2` holds exactly when
`tsAbove d v` does. -/
theorem tsAbove_iff_real (d v : ℚ) (hv : 0 < v) :
    tsAbove d v = true ↔ (1/5 : ℝ) < (d : ℝ) / Real.sqrt (v : ℝ) := by
  have hs : (0 : ℝ) < Real.sqrt (v : ℝ) :=
    Real.sqrt_pos.mpr (by exact_mod_cast hv)
  have hsnn : (0 : ℝ) ≤ Real.sqrt (v : ℝ) := hs.le
  unfold tsAbove tsPos
  rw [Bool.and_eq_true, Bool.and_eq_true, decide_eq_true_eq,
    decide_eq_true_eq, decide_eq_true_eq, lt_div_iff₀ hs]
  constructor
  · rintro ⟨⟨-, hd⟩, hlt⟩
    have hd' : (0 : ℝ) < (d : ℚ) := by exact_mod_cast hd
    have hv25 : ((v : ℚ) : ℝ) < 25 * ((d : ℝ) * (d : ℝ)) := by
      exact_mod_cast hlt
    have hsv : Real.sqrt (v : ℝ) < 5 * (d : ℝ) := by
      rw [Real.sqrt_lt' (by positivity)]
      nlinarith
    nlinarith
  · intro hlt
    have hd' : (0 : ℝ) < (d : ℝ) := by nlinarith
    have hsv : Real.sqrt (v : ℝ) < 5 * (d : ℝ) := by nlinarith
    have hv2 : ((v : ℚ) : ℝ) < (5 * (d : ℝ)) ^ 2 :=
      (Real.sqrt_lt' (by positivity)).mp hsv
    refine ⟨⟨hv.ne', by exact_mod_cast hd'⟩, ?_⟩
    have : ((v : ℚ) : ℝ) < 25 * ((d : ℝ) * (d : ℝ)) := by nlinarith
    exact_mod_cast this

/-- `tsNeg` is `tsPos` of the negated difference. -/
theorem tsNeg_eq_tsPos_neg (d v : ℚ) : tsNeg d v = tsPos (-d) v := by
  simp [tsNeg, tsPos, neg_pos]

/-- `tsBelow` is `tsAbove` of the negated difference. -/
theorem tsBelow_eq_tsAbove_neg (d v : ℚ) : tsBelow d v = tsAbove (-d) v := by
  simp [tsBelow, tsAbove, tsNeg_eq_tsPos_neg, neg_mul_neg]

/-- The spec's single-step confidence modifier (spec §4.5 step 5, written
from the spec's words): MEDIUM→HIGH on an IMPROVING opponent trend,
HIGH→MEDIUM on a DECLINING one, otherwise unchanged. -/
def specAdjust (base : Conf) : Option OppTrend → Conf
  | some OppTrend.improving => if base = Conf.medium then Conf.high else base
  | some OppTrend.declining => if base = Conf.high then Conf.medium else base
  | _ => base

/-- The spec's decision rule (spec §4.5 step 5, written from the spec's
words): AVOID/LOW when `|avg_vs_line| ≤ 0.10` with the opponent modifier
never applied; otherwise OVER on positive `avg_vs_line` and UNDER on
negative, base confidence HIGH exactly when the sign of `trend_strength`
agrees with the direction, then the single-step modifier. -/
def specDecision (avg_vs_line : ℚ) (sPos sNeg : Bool)
    (oppTrend : Option OppTrend) : Rec × Conf :=
  if |avg_vs_line| ≤ 1/10 then (Rec.avoid, Conf.low)
  else if 0 < avg_vs_line then
    (Rec.over, specAdjust (if sPos then Conf.high else Conf.medium) oppTrend)
  else
    (Rec.under, specAdjust (if sNeg then Conf.high else Conf.medium) oppTrend)

/-- The source's recommendation branch (lines 240–265) computes exactly the
spec's decision rule, with the opponent trend carried through the
`confidence_modifier`. -/
theorem adjust_confidence_eq_spec (base : Conf) (perf : Option OppPerf) :
    adjust_confidence (confidence_modifier perf) base =
      specAdjust base (Option.map OppPerf.trend perf) := by
  rcases perf with _ | ⟨avg, gp, t, lp⟩
  · cases base <;>
      simp [adjust_confidence, confidence_modifier, specAdjust]
  · cases t <;> cases base <;>
      simp [adjust_confidence, confidence_modifier, specAdjust]

theorem make_recommendation_eq_spec (avl : ℚ) (sPos sNeg : Bool)
    (perf : Option OppPerf) :
    make_recommendation (FloatQ.fin avl) sPos sNeg (confidence_modifier perf)
      = specDecision avl sPos sNeg (Option.map OppPerf.trend perf) := by
  simp only [make_recommendation, specDecision, absGtTenth, gtZero,
    decide_eq_true_eq]
  by_cases h : 1/10 < |avl|
  · rw [if_pos h, if_neg (not_le.mpr h)]
    by_cases h2 : 0 < avl
    · rw [if_pos h2, if_pos h2, adjust_confidence_eq_spec]
    · rw [if_neg h2, if_neg h2, adjust_confidence_eq_spec]
  · rw [if_neg h, if_pos (not_lt.mp h)]

/-- For a nonzero divisor the float division of analyzer.py line 214 is the
exact rational quotient. -/
theorem fdiv_of_ne_zero (a b : ℚ) (hb : b ≠ 0) :
    fdiv a b = FloatQ.fin (a / b) := by
  simp [fdiv, hb]

/-- Claim C1: for every successful `analyze_trend` call on a nonzero line —
a zero line is outside the rule's scope, being a spec-declared
precondition violation (spec §4.5 step 3) — the recommendation and
confidence follow the spec's decision rule: AVOID with confidence LOW
exactly when `|avg_vs_line| ≤ 0.10` with `avg_vs_line = (last_5_avg −
line)/line`, otherwise OVER on positive / UNDER on negative `avg_vs_line`
with base confidence HIGH exactly when the sign of `trend_strength` agrees
with the direction, adjusted by the single-step opponent modifier which
never changes an AVOID; and for points 20..38 (oldest to newest) with line
27 the result is OVER with trend UP and confidence HIGH. -/
theorem claim_C1_trend_decision_rule :
    (∀ (a : Analyzer) (player metric : String) (line : ℚ)
        (opponent : Option String) (r : TrendRecommendation),
        line ≠ 0 →
        analyze_trend a player metric line opponent = PyResult.ok r →
        ∃ st : Averages,
          calculate_averages a player metric 10 = PyResult.ok st ∧
          ∃ l5 l10 : ℚ, st.last_5 = some l5 ∧ st.last_10 = some l10 ∧
            (r.recommendation, r.confidence) =
              specDecision ((l5 - line) / line)
                (tsPos (l5 - l10) st.variance)
                (tsNeg (l5 - l10) st.variance)
                (Option.map OppPerf.trend r.vs_opponent))
    ∧ analyze_trend storeA "p1" "points" 27 none =
        PyResult.ok
          { metric := "points", line := 27, last_5_avg := 34,
            last_10_avg := 29, trend := Trend.up,
            recommendation := Rec.over, confidence := Conf.high,
            vs_opponent := none } := by
  constructor
  · intro a player metric line opponent r hline h
    unfold analyze_trend at h
    cases hca : calculate_averages a player metric 10 with
    | pyNone => rw [hca] at h; simp at h
    | msg s => rw [hca] at h; simp at h
    | exn e => rw [hca] at h; simp at h
    | ok st =>
        rw [hca] at h
        dsimp only at h
        refine ⟨st, rfl, ?_⟩
        split at h
        · simp at h
        · rename_i hcond
          simp only [Bool.or_eq_true, not_or] at hcond
          obtain ⟨h5f, h10f⟩ := hcond
          cases h5 : st.last_5 with
          | none => rw [h5] at h5f; simp [falsyQ] at h5f
          | some l5 =>
              cases h10 : st.last_10 with
              | none => rw [h10] at h10f; simp [falsyQ] at h10f
              | some l10 =>
                  refine ⟨l5, l10, rfl, rfl, ?_⟩
                  rw [h5, h10] at h
                  simp only [Option.getD_some] at h
                  cases hop :
                      opponent_performance a player metric opponent with
                  | error e => rw [hop] at h; simp at h
                  | ok perf =>
                      rw [hop] at h
                      dsimp only at h
                      injection h with h'
                      subst h'
                      dsimp only
                      rw [Prod.mk.eta, fdiv_of_ne_zero _ _ hline]
                      exact make_recommendation_eq_spec _ _ _ _
  · norm_num [analyze_trend, calculate_averages, lookupA, storeA, buildStore,
      add_game_data, Analyzer.empty, setA, sortByDateDesc, insertDesc,
      extractValues, GameRecord.get?, listMean, listMax, listMin, popVar,
      falsyQ, tsPos, tsNeg, tsAbove, tsBelow, make_recommendation,
      adjust_confidence, confidence_modifier, opponent_performance, round2,
      fdiv, absGtTenth, gtZero, abs]

/-- Claim C5 counterexample: at values [−10, −10] (most recent first) the
historical mean of the other values is −10, the most recent value −10 *is*
below 0.90 times that mean (−10 < −9), yet the classification is IMPROVING
(the IMPROVING test `recent > 1.1 × mean` fires first: −10 > −11), not
DECLINING as the claim's unconditional "DECLINING when below 0.90 times the
mean" requires. -/
theorem claim_C5_counterexample :
    (-10 : ℚ) < listMean [(-10 : ℚ)] * (9/10)
    ∧ calculate_opponent_trend [(-10 : ℚ), -10] = OppTrend.improving := by
  norm_num [calculate_opponent_trend, listMean]

/-- Claim C5 as amended: INSUFFICIENT_DATA for fewer than 2 games;
otherwise (values most recent first) IMPROVING exactly when the most recent
value exceeds 1.10 times the mean of the other values, DECLINING exactly
when it is below 0.90 times that mean AND does not exceed 1.10 times it
(the two tests apply in that order), and STABLE exactly when neither
condition holds; values [10, 20] (most recent first) yield DECLINING. -/
theorem claim_C5_opponent_trend_classification :
    (∀ values : List ℚ, values.length < 2 →
        calculate_opponent_trend values = OppTrend.insufficientData)
    ∧ (∀ (recent : ℚ) (rest : List ℚ), rest ≠ [] →
        (calculate_opponent_trend (recent :: rest) = OppTrend.improving ↔
          listMean rest * (11/10) < recent)
        ∧ (calculate_opponent_trend (recent :: rest) = OppTrend.declining ↔
          (recent < listMean rest * (9/10) ∧
           ¬ listMean rest * (11/10) < recent))
        ∧ (calculate_opponent_trend (recent :: rest) = OppTrend.stable ↔
          (¬ listMean rest * (11/10) < recent ∧
           ¬ recent < listMean rest * (9/10))))
    ∧ calculate_opponent_trend [10, 20] = OppTrend.declining := by
  refine ⟨?_, ?_, ?_⟩
  · intro values hlen
    match values with
    | [] => rfl
    | [_] => rfl
    | _ :: _ :: _ => simp only [List.length_cons] at hlen; omega
  · intro recent rest hne
    match rest with
    | [] => exact absurd rfl hne
    | b :: bs =>
        unfold calculate_opponent_trend
        by_cases h1 : listMean (b :: bs) * (11/10) < recent
        · simp [h1]
        · by_cases h2 : recent < listMean (b :: bs) * (9/10)
          · simp [h1, h2]
          · simp [h1, h2]
  · norm_num [calculate_opponent_trend, listMean]

/-- Store with one player `"p3"` holding 5 point records on dates 1..5. -/
def store3 : Analyzer :=
  buildStore
    [("p3", 1, [("points", 10)], none),
     ("p3", 2, [("points", 12)], none),
     ("p3", 3, [("points", 14)], none),
     ("p3", 4, [("points", 16)], none),
     ("p3", 5, [("points", 30)], none)]

/-- Store for the matchup claim: player `"p4"` with 6 point records, twice
against opponent `"X"`. -/
def store4 : Analyzer :=
  buildStore
    [("p4", 1, [("points", 20)], some "X"),
     ("p4", 2, [("points", 22)], none),
     ("p4", 3, [("points", 24)], some "X"),
     ("p4", 4, [("points", 26)], none),
     ("p4", 5, [("points", 28)], none),
     ("p4", 6, [("points", 30)], none)]

/-- Heterogeneous history: player `"p7"` with 10 records of which the one on
date 3 lacks `"points"` (it has only `"rebounds"`), while the most recent
record has it. -/
def store7 : Analyzer :=
  buildStore
    [("p7", 1, [("points", 20)], none),
     ("p7", 2, [("points", 22)], none),
     ("p7", 3, [("rebounds", 5)], none),
     ("p7", 4, [("points", 26)], none),
     ("p7", 5, [("points", 28)], none),
     ("p7", 6, [("points", 30)], none),
     ("p7", 7, [("points", 32)], none),
     ("p7", 8, [("points", 34)], none),
     ("p7", 9, [("points", 36)], none),
     ("p7", 10, [("points", 38)], none)]

/-- Player `"p8"` with 5 records: the first-inserted record (date 1) lacks
`"points"`, all later ones (dates 2..5) have it. -/
def store8 : Analyzer :=
  buildStore
    [("p8", 1, [("rebounds", 7)], none),
     ("p8", 2, [("points", 21)], none),
     ("p8", 3, [("points", 23)], none),
     ("p8", 4, [("points", 25)], none),
     ("p8", 5, [("points", 27)], none)]

/-- Player `"p8b"` with exactly 4 records, all carrying `"points"`. -/
def store8b : Analyzer :=
  buildStore
    [("p8b", 1, [("points", 11)], none),
     ("p8b", 2, [("points", 13)], none),
     ("p8b", 3, [("points", 15)], none),
     ("p8b", 4, [("points", 17)], none)]

/-- Player `"p9"` with 10 records, every one carrying `"points" = 0`. -/
def store9 : Analyzer :=
  buildStore
    [("p9", 1, [("points", 0)], none),
     ("p9", 2, [("points", 0)], none),
     ("p9", 3, [("points", 0)], none),
     ("p9", 4, [("points", 0)], none),
     ("p9", 5, [("points", 0)], none),
     ("p9", 6, [("points", 0)], none),
     ("p9", 7, [("points", 0)], none),
     ("p9", 8, [("points", 0)], none),
     ("p9", 9, [("points", 0)], none),
     ("p9", 10, [("points", 0)], none)]

/-- Claim C2 (code defect): on the 10-game store of Scenario A — a call the
claim expects to succeed with a Student's-t interval — `suggest_line`
raises `AttributeError`: the local variable `stats` (the player's game
list, assigned on line 151) shadows the `scipy.stats` module at the
`stats.t.interval` call on line 174, so no confidence interval is ever
computed and no call with ≥ 5 usable records succeeds. -/
theorem claim_C2_suggest_line_raises_attribute_error :
    ((lookupA storeA.player_stats "p1").getD []).length = 10
    ∧ suggest_line storeA "p1" "points" (4/5) =
        PyResult.exn PyExn.attributeError := by
  constructor
  · norm_num [storeA, buildStore, add_game_data, Analyzer.empty, setA,
      lookupA]
  · norm_num [suggest_line, lookupA, storeA, buildStore, add_game_data,
      Analyzer.empty, setA, sortByDateDesc, insertDesc, extractValues,
      GameRecord.get?]

/-- Claim C3 (code defect): the form-adjustment and recent-form
classification of lines 181–195 are dead code — on a 5-game store (the
claim's minimal successful shape) `suggest_line` raises `AttributeError`
at line 174 before `form_adjustment` is ever computed. -/
theorem claim_C3_form_adjustment_unreachable :
    ((lookupA store3.player_stats "p3").getD []).length = 5
    ∧ suggest_line store3 "p3" "points" (4/5) =
        PyResult.exn PyExn.attributeError := by
  constructor
  · norm_num [store3, buildStore, add_game_data, Analyzer.empty, setA,
      lookupA]
  · norm_num [suggest_line, lookupA, store3, buildStore, add_game_data,
      Analyzer.empty, setA, sortByDateDesc, insertDesc, extractValues,
      GameRecord.get?]

/-- Claim C4 (code defect): with a 6-game player and an opponent with 2
indexed games — the shape on which the claim promises the compounded
opponent adjustment — `suggest_line_with_matchup` raises `AttributeError`
through its call to `suggest_line`, so the adjusted branch is never
reached. -/
theorem claim_C4_matchup_adjustment_unreachable :
    ((lookupA ((lookupA store4.opponent_stats "p4").getD []) "X").getD
        []).length = 2
    ∧ suggest_line_with_matchup store4 "p4" "points" (some "X") (4/5) =
        PyResult.exn PyExn.attributeError := by
  constructor
  · norm_num [store4, buildStore, add_game_data, Analyzer.empty, setA,
      lookupA]
  · norm_num [suggest_line_with_matchup, suggest_line, lookupA, store4,
      buildStore, add_game_data, Analyzer.empty, setA, sortByDateDesc,
      insertDesc, extractValues, GameRecord.get?]

/-- Claim C6 (code defect): on a player with 10 stored records,
`analyze_trend` with `line = 0` surfaces no defined error result: the
`np.float64` division by zero at line 214 silently yields `+inf` under
numpy's default error state (a `RuntimeWarning` only — the repository never
calls `np.seterr`), `abs(inf) > 0.1` holds, and the call returns a full
OVER / HIGH recommendation built from the infinite `avg_vs_line` — the
division by zero is swallowed, not detected. -/
theorem claim_C6_line_zero_silent_recommendation :
    ((lookupA storeA.player_stats "p1").getD []).length = 10
    ∧ analyze_trend storeA "p1" "points" 0 none =
        PyResult.ok
          { metric := "points", line := 0, last_5_avg := 34,
            last_10_avg := 29, trend := Trend.up,
            recommendation := Rec.over, confidence := Conf.high,
            vs_opponent := none } := by
  constructor
  · norm_num [storeA, buildStore, add_game_data, Analyzer.empty, setA,
      lookupA]
  · norm_num [analyze_trend, calculate_averages, lookupA, storeA,
      buildStore, add_game_data, Analyzer.empty, setA, sortByDateDesc,
      insertDesc, extractValues, GameRecord.get?, listMean, listMax,
      listMin, popVar, falsyQ, tsPos, tsNeg, tsAbove, tsBelow,
      make_recommendation, adjust_confidence, confidence_modifier,
      opponent_performance, round2, fdiv, absGtTenth, gtZero, abs]

/-- The most recent record of a history contains the metric (the wording
"the most recent record's field set" made precise on the embedding). -/
def mostRecentHas (stats : List GameRecord) (metric : String) : Bool :=
  match sortByDateDesc stats with
  | [] => false
  | r :: _ => (r.get? metric).isSome

/-- Claim C7 (code defect): failures do escape the query boundary as
exceptions.  On a 10-record history whose most recent record carries
`"points"` but whose date-3 record does not, `analyze_trend` raises
`KeyError` out of `calculate_averages`' metric extraction instead of
returning a sentinel. -/
theorem claim_C7_key_error_escapes :
    mostRecentHas ((lookupA store7.player_stats "p7").getD []) "points" =
        true
    ∧ analyze_trend store7 "p7" "points" 27 none =
        PyResult.exn (PyExn.keyError "points") := by
  constructor
  · norm_num [mostRecentHas, store7, buildStore, add_game_data,
      Analyzer.empty, setA, lookupA, sortByDateDesc, insertDesc,
      GameRecord.get?]
  · simp [analyze_trend, calculate_averages, lookupA, store7,
      buildStore, add_game_data, Analyzer.empty, setA, sortByDateDesc,
      insertDesc, extractValues, GameRecord.get?, listMean, listMax,
      listMin, popVar, falsyQ]

/-- Claim C9 (code defect): a player with 10 records that all contain the
requested metric, and a nonzero line, still gets the insufficient-data
failure when the rolling averages are 0 — `if not last_5_avg or not
last_10_avg` (line 207) treats the falsy float `0.0` like a missing
average. -/
theorem claim_C9_zero_average_insufficient_data :
    ((lookupA store9.player_stats "p9").getD []).length = 10
    ∧ (((lookupA store9.player_stats "p9").getD []).all
        (fun r => (r.get? "points").isSome)) = true
    ∧ analyze_trend store9 "p9" "points" 1 none =
        PyResult.msg "Insufficient data for trend analysis" := by
  refine ⟨?_, ?_, ?_⟩
  · norm_num [store9, buildStore, add_game_data, Analyzer.empty, setA,
      lookupA]
  · norm_num [store9, buildStore, add_game_data, Analyzer.empty, setA,
      lookupA, GameRecord.get?, List.all]
  · norm_num [analyze_trend, calculate_averages, lookupA, store9,
      buildStore, add_game_data, Analyzer.empty, setA, sortByDateDesc,
      insertDesc, extractValues, GameRecord.get?, listMean, listMax,
      listMin, popVar, falsyQ]

/-- A `PyResult` is an actually returned suggestion dict. -/
def isOkResult {α : Type} : PyResult α → Bool
  | PyResult.ok _ => true
  | _ => false

/-- Claim C10 (premise never satisfiable): no call to `suggest_line` on any
store ever returns a suggestion — the shadowed `stats.t.interval` raises
`AttributeError` on every path that survives the data checks — so there is
no successful call on which widening the confidence level could be
observed. -/
theorem claim_C10_no_successful_suggest_line :
    ∀ (a : Analyzer) (player metric : String) (ci : ℚ),
      isOkResult (suggest_line a player metric ci) = false := by
  intro a player metric ci
  unfold suggest_line
  cases h1 : lookupA a.player_stats player with
  | none => rfl
  | some stats =>
      cases stats with
      | nil => rfl
      | cons s0 rest =>
          by_cases h2 : (GameRecord.get? s0 metric).isNone
          · simp [h2, isOkResult]
          · cases h3 : extractValues metric
                ((sortByDateDesc (s0 :: rest)).take 20) with
            | error e => simp [h2, h3, isOkResult]
            | ok vals =>
                by_cases h4 : vals.length < 5
                · simp [h2, h3, h4, isOkResult]
                · simp [h2, h3, h4, isOkResult]

/-- Claim C8 counterexample: player `"p8"` has 5 records and its most
recent record (date 5) carries `"points"`, so the claim says the call does
not get NoData — yet `suggest_line` returns `None`: the guard `metric not
in stats[0]` (line 155) inspects the first-*stored* record (date 1, which
lacks `"points"`), not the most recent one. -/
theorem claim_C8_counterexample :
    ((lookupA store8.player_stats "p8").getD []).length = 5
    ∧ mostRecentHas ((lookupA store8.player_stats "p8").getD []) "points" =
        true
    ∧ suggest_line store8 "p8" "points" (4/5) = PyResult.pyNone := by
  refine ⟨?_, ?_, ?_⟩
  · norm_num [store8, buildStore, add_game_data, Analyzer.empty, setA,
      lookupA]
  · simp [mostRecentHas, store8, buildStore, add_game_data, Analyzer.empty,
      setA, lookupA, sortByDateDesc, insertDesc, GameRecord.get?]
  · simp [suggest_line, lookupA, store8, buildStore, add_game_data,
      Analyzer.empty, setA, sortByDateDesc, insertDesc, extractValues,
      GameRecord.get?]

/-- The exact condition under which `suggest_line` returns `None`, read off
the source's early returns (lines 147–167): unknown player, empty history,
requested metric absent from the first-stored record, or metric extraction
over the up-to-20 most recent records succeeding with fewer than 5
values. -/
def suggestLineNoData (a : Analyzer) (player metric : String) : Prop :=
  match lookupA a.player_stats player with
  | none => True
  | some stats =>
      match stats with
      | [] => True
      | s0 :: _ =>
          (s0.get? metric).isNone = true ∨
          ∃ vals, extractValues metric ((sortByDateDesc stats).take 20) =
              Except.ok vals ∧ vals.length < 5

/-- Claim C8 as amended: `suggest_line` returns NoData exactly when the
player is unknown, has no records, the requested metric is absent from the
first-*stored* record's field set (not the most recent one), or the metric
extraction over the selected recent records succeeds with fewer than 5
values; in particular a player with exactly 4 records all carrying the
metric gets NoData.  (A player with ≥ 5 records whose first-stored record
carries the metric never gets NoData — on such calls the shadowing defect
raises `AttributeError` instead of producing a suggestion.) -/
theorem claim_C8_no_data_characterisation :
    (∀ (a : Analyzer) (player metric : String) (ci : ℚ),
        suggest_line a player metric ci = PyResult.pyNone ↔
          suggestLineNoData a player metric)
    ∧ suggest_line store8b "p8b" "points" (4/5) = PyResult.pyNone := by
  constructor
  · intro a player metric ci
    unfold suggest_line suggestLineNoData
    cases h1 : lookupA a.player_stats player with
    | none => simp
    | some stats =>
        cases stats with
        | nil => simp
        | cons s0 rest =>
            by_cases h2 : (GameRecord.get? s0 metric).isNone
            · simp [h2]
            · cases h3 : extractValues metric
                  ((sortByDateDesc (s0 :: rest)).take 20) with
              | error e => simp [h2, h3]
              | ok vals =>
                  by_cases h4 : vals.length < 5
                  · simp [h2, h3, h4]
                  · simp [h2, h3, h4]
  · norm_num [suggest_line, lookupA, store8b, buildStore, add_game_data,
      Analyzer.empty, setA, sortByDateDesc, insertDesc, extractValues,
      GameRecord.get?]
